import Mathlib

/-!
Shallow embedding of the formation-rate scoring engine of the
winter-climbing-conditions repository (src/scoring.py, config.py).
Python floats are modelled as rationals; the built-in round with ndigits
is modelled as round-half-to-even on rationals; the float modulo with a
positive modulus is modelled via the floor.
-/

/-- Round a rational to the nearest integer, ties to even (the semantics of
the Python built-in round on exact values). -/
def roundHalfEven (q : ℚ) : ℤ :=
  let f : ℤ := q.floor
  let r : ℚ := q - (f : ℚ)
  if r < 1/2 then f
  else if 1/2 < r then f + 1
  else if f % 2 = 0 then f else f + 1

/-- Python round(q, n) to n decimal digits. -/
def pyRound (n : ℕ) (q : ℚ) : ℚ :=
  ((roundHalfEven (q * 10 ^ n) : ℚ)) / 10 ^ n

/-- Python modulo a % b for a positive modulus b: the representative of a
modulo b lying in [0, b). -/
def pyMod (a b : ℚ) : ℚ := a - b * ((a / b).floor : ℚ)

/-- Python min on two floats, modelled over the rationals. -/
def qmin (a b : ℚ) : ℚ := if a ≤ b then a else b

/-- Python max on two floats, modelled over the rationals. -/
def qmax (a b : ℚ) : ℚ := if a ≤ b then b else a

/-- Python abs on a float, modelled over the rationals. -/
def qabs (a : ℚ) : ℚ := if a < 0 then -a else a

/-- Configuration constant RIME_TEMP_OPTIMAL_MIN from config.py. -/
def RIME_TEMP_OPTIMAL_MIN : ℚ := -10

/-- Configuration constant RIME_TEMP_OPTIMAL_MAX from config.py. -/
def RIME_TEMP_OPTIMAL_MAX : ℚ := -2

/-- Configuration constant RIME_TEMP_VIABLE_MIN from config.py. -/
def RIME_TEMP_VIABLE_MIN : ℚ := -15

/-- Configuration constant RIME_TEMP_VIABLE_MAX from config.py. -/
def RIME_TEMP_VIABLE_MAX : ℚ := 0

/-- Configuration constant RIME_HUMIDITY_THRESHOLD from config.py. -/
def RIME_HUMIDITY_THRESHOLD : ℚ := 85

/-- Configuration constant RIME_WIND_MAX from config.py. -/
def RIME_WIND_MAX : ℚ := 25

/-- Configuration constant VERGLAS_TEMP_CENTER from config.py. -/
def VERGLAS_TEMP_CENTER : ℚ := 0

/-- Configuration constant VERGLAS_TEMP_RANGE from config.py. -/
def VERGLAS_TEMP_RANGE : ℚ := 2

/-- Configuration constant VERGLAS_MIN_LOOKBACK_HOURS from config.py. -/
def VERGLAS_MIN_LOOKBACK_HOURS : ℕ := 12

/-- Configuration constant ELEVATION_BASE from config.py. -/
def ELEVATION_BASE : ℚ := 800

/-- Configuration constant ELEVATION_SCALE from config.py. -/
def ELEVATION_SCALE : ℚ := 400

/-- The name RIME_WIND_MIN is read by scoring.py (function _score_rime_wind)
but config.py never defines it, so in Python the attribute access raises
AttributeError; the missing attribute is modelled as none. -/
def RIME_WIND_MIN : Option ℚ := none

/-- Embedding of _score_rime_temperature from src/scoring.py: trapezoidal
temperature score for rime, 0 to 30 points. -/
def score_rime_temperature (temp : ℚ) : ℚ :=
  if temp > RIME_TEMP_VIABLE_MAX ∨ temp < RIME_TEMP_VIABLE_MIN then 0
  else if temp > RIME_TEMP_OPTIMAL_MAX then
    30 * (1 - (temp - RIME_TEMP_OPTIMAL_MAX) / (RIME_TEMP_VIABLE_MAX - RIME_TEMP_OPTIMAL_MAX))
  else if RIME_TEMP_OPTIMAL_MIN ≤ temp ∧ temp ≤ RIME_TEMP_OPTIMAL_MAX then 30
  else 30 * (1 - (RIME_TEMP_OPTIMAL_MIN - temp) / (RIME_TEMP_OPTIMAL_MIN - RIME_TEMP_VIABLE_MIN))

/-- Embedding of _score_humidity from src/scoring.py: 0 to 25 points. -/
def score_humidity (humidity : ℚ) : ℚ :=
  if humidity ≥ RIME_HUMIDITY_THRESHOLD then 25
  else qmax 0 (humidity / RIME_HUMIDITY_THRESHOLD * 25)

/-- Embedding of _score_rime_wind from src/scoring.py. It reads
config.RIME_WIND_MIN, which does not exist, so every call fails;
the failure is modelled with Option. -/
def score_rime_wind (wind_speed : ℚ) : Option ℚ :=
  RIME_WIND_MIN.map fun wmin =>
    if wind_speed < wmin then wind_speed / wmin * 10
    else 10 + qmin (wind_speed - wmin) 15 / 15 * 10

/-- Embedding of _score_elevation from src/scoring.py: 0 to 15 points. -/
def score_elevation (elevation : ℚ) : ℚ :=
  if elevation < ELEVATION_BASE then 0
  else qmin 15 ((elevation - ELEVATION_BASE) / ELEVATION_SCALE * 10)

/-- Embedding of _score_windward_aspect from src/scoring.py: 0 to 10 points. -/
def score_windward_aspect (aspect wind_direction : ℚ) : ℚ :=
  let windward := pyMod (wind_direction + 180) 360
  let diff0 := qabs (aspect - windward)
  let diff := if diff0 > 180 then 360 - diff0 else diff0
  qmax 0 (10 * (1 - diff / 90))

/-- Embedding of _score_verglas_temperature from src/scoring.py: 0 to 35 points. -/
def score_verglas_temperature (temp : ℚ) : ℚ :=
  let distance := qabs (temp - VERGLAS_TEMP_CENTER)
  if distance > VERGLAS_TEMP_RANGE * 2 then 0
  else if distance ≤ VERGLAS_TEMP_RANGE then 35
  else 35 * (1 - (distance - VERGLAS_TEMP_RANGE) / VERGLAS_TEMP_RANGE)

/-- Embedding of _score_precipitation from src/scoring.py: 0 to 30 points. -/
def score_precipitation (precip : ℚ) : ℚ :=
  if precip ≤ 0 then 0 else qmin 30 (precip * 6)

/-- Embedding of _score_shaded_aspect from src/scoring.py: 0 to 10 points. -/
def score_shaded_aspect (aspect : ℚ) : ℚ :=
  let diff0 := qabs (aspect - 0)
  let diff := if diff0 > 180 then 360 - diff0 else diff0
  qmax 0 (10 * (1 - diff / 90))

/-- Embedding of _score_time_of_day from src/scoring.py: 0 to 10 points. -/
def score_time_of_day (hour : ℤ) : ℚ :=
  if (18 ≤ hour ∧ hour ≤ 23) ∨ (0 ≤ hour ∧ hour ≤ 6) then 10
  else if 7 ≤ hour ∧ hour ≤ 9 then 5
  else 2

/-- Embedding of _get_risk_level from src/scoring.py. -/
def get_risk_level (score : ℚ) : String :=
  if score ≥ 75 then "extreme"
  else if score ≥ 50 then "high"
  else if score ≥ 25 then "moderate"
  else "low"

/-- Result record of the 0-100 risk functions: score, level and the
factor-name to sub-score mapping, in insertion order. -/
structure RiskResult where
  score : ℚ
  level : String
  factors : List (String × ℚ)
deriving Repr, DecidableEq

/-- Embedding of calculate_rime_risk from src/scoring.py. The wind factor
calls _score_rime_wind, which always fails on the missing configuration
attribute, so the whole call is fallible (Option). -/
def calculate_rime_risk (temperature humidity wind_speed wind_direction : ℚ)
    (elevation aspect : Option ℚ) : Option RiskResult :=
  (score_rime_wind wind_speed).map fun fwind =>
    let ftemp := score_rime_temperature temperature
    let fhum := score_humidity humidity
    let felev := match elevation with
      | some e => score_elevation e
      | none => 15/2
    let fasp := match aspect with
      | some a => score_windward_aspect a wind_direction
      | none => 5
    let total := qmax 0 (qmin 100 (ftemp + fhum + fwind + felev + fasp))
    { score := pyRound 1 total
      level := get_risk_level total
      factors := [("temperature", ftemp), ("humidity", fhum), ("wind", fwind),
                  ("elevation", felev), ("aspect", fasp)] }

/-- Embedding of calculate_verglas_risk from src/scoring.py. -/
def calculate_verglas_risk (temperature humidity precipitation : ℚ)
    (aspect : Option ℚ) (hour_of_day : Option ℤ) : RiskResult :=
  let ftemp := score_verglas_temperature temperature
  let fprecip := score_precipitation precipitation
  let fhum := qmin 15 (humidity / 100 * 15)
  let fasp := match aspect with
    | some a => score_shaded_aspect a
    | none => 5
  let ftime := match hour_of_day with
    | some h => score_time_of_day h
    | none => 5
  let total := qmax 0 (qmin 100 (ftemp + fprecip + fhum + fasp + ftime))
  { score := pyRound 1 total
    level := get_risk_level total
    factors := [("temperature", ftemp), ("precipitation", fprecip), ("humidity", fhum),
                ("aspect", fasp), ("time", ftime)] }

/-- Combined assessment record returned by get_combined_risk. -/
structure CombinedRisk where
  overall_score : ℚ
  overall_level : String
  rime : RiskResult
  verglas : RiskResult
  primary_hazard : String
deriving Repr, DecidableEq

/-- Embedding of get_combined_risk from src/scoring.py. -/
def get_combined_risk (rime_risk verglas_risk : RiskResult) : CombinedRisk :=
  let max_score := qmax rime_risk.score verglas_risk.score
  { overall_score := pyRound 1 max_score
    overall_level := get_risk_level max_score
    rime := rime_risk
    verglas := verglas_risk
    primary_hazard := if rime_risk.score > verglas_risk.score then "rime" else "verglas" }

/-- Wind factor of calculate_rime_formation_rate (src/scoring.py line 323):
min(1.0, wind_speed / 15.0). -/
def rime_wind_factor (wind_speed : ℚ) : ℚ := qmin 1 (wind_speed / 15)

/-- Aspect factor of calculate_rime_formation_rate (src/scoring.py lines
327-333): angular difference is taken from (wind_direction + 180) % 360. -/
def rime_aspect_factor (aspect wind_direction : ℚ) : ℚ :=
  let windward_aspect := pyMod (wind_direction + 180) 360
  let d0 := qabs (aspect - windward_aspect)
  let angle_diff := if d0 > 180 then 360 - d0 else d0
  1/10 + 9/10 * qmax 0 ((90 - angle_diff) / 90)

/-- Minimal angular difference between two bearings, as the spec defines
angularDifference (section 4.1). -/
def angularDifference (a b : ℚ) : ℚ :=
  let d := pyMod (qabs (a - b)) 360
  if d > 180 then 360 - d else d

/-- Aspect factor as the spec states it (section 4.3 step 4), written from
the spec words for comparison with rime_aspect_factor from the source:
the angular difference is taken from wind_direction itself. -/
def spec_rime_aspect_factor (aspect wind_direction : ℚ) : ℚ :=
  1/10 + 9/10 * qmax 0 ((90 - angularDifference aspect wind_direction) / 90)

/-- Embedding of calculate_rime_formation_rate from src/scoring.py. -/
def calculate_rime_formation_rate
    (temperature humidity wind_speed wind_direction aspect : ℚ) : ℚ :=
  if temperature > RIME_TEMP_VIABLE_MAX ∨ temperature < RIME_TEMP_VIABLE_MIN then 0
  else if humidity < 70 then 0
  else
    let temp_factor := score_rime_temperature temperature / 30
    let humidity_factor := qmin 1 ((humidity - 70) / 30)
    let wind_factor := rime_wind_factor wind_speed
    let aspect_factor := rime_aspect_factor aspect wind_direction
    let base_rate := temp_factor * humidity_factor * wind_factor
    let formation_rate := base_rate * aspect_factor
    pyRound 3 (qmin 1 formation_rate)

/-- Moisture factor of calculate_verglas_formation_rate (src/scoring.py
lines 383-386). -/
def verglas_moisture_factor (precipitation humidity : ℚ) : ℚ :=
  if precipitation > 0 then qmin 1 (precipitation / 3)
  else (humidity - 85) / 15

/-- Embedding of calculate_verglas_formation_rate from src/scoring.py
(the aspect and time-of-day variant). -/
def calculate_verglas_formation_rate
    (temperature humidity precipitation aspect : ℚ) (hour_of_day : Option ℤ) : ℚ :=
  if temperature > 4 ∨ temperature < -4 then 0
  else if precipitation ≤ 0 ∧ humidity < 85 then 0
  else
    let temp_distance := qabs temperature
    let temp_factor :=
      if temp_distance ≤ 1 then 1
      else if temp_distance ≤ 4 then (4 - temp_distance) / 3
      else 0
    let moisture_factor := verglas_moisture_factor precipitation humidity
    let nd0 := qabs aspect
    let north_diff := if nd0 > 180 then 360 - nd0 else nd0
    let aspect_factor := if north_diff ≤ 135/2 then 1 - north_diff / 135 else 3/10
    let time_factor : ℚ := match hour_of_day with
      | none => 1
      | some h =>
        if 10 ≤ h ∧ h ≤ 15 then 1/2
        else if (6 ≤ h ∧ h ≤ 9) ∨ (16 ≤ h ∧ h ≤ 18) then 3/4
        else 1
    let base_rate := temp_factor * moisture_factor * time_factor
    pyRound 3 (qmin 1 (base_rate * aspect_factor))

/-- Embedding of the COMPASS_POINTS table from src/scoring.py, in its
insertion order. -/
def COMPASS_POINTS : List (String × ℚ) :=
  [("N", 0), ("NE", 45), ("E", 90), ("SE", 135),
   ("S", 180), ("SW", 225), ("W", 270), ("NW", 315)]

/-- Per-aspect formation-rate record with the rime and verglas mappings,
each in compass order. -/
structure AspectRates where
  rime : List (String × ℚ)
  verglas : List (String × ℚ)
deriving Repr, DecidableEq

/-- Embedding of calculate_aspect_formation_rates from src/scoring.py. -/
def calculate_aspect_formation_rates
    (temperature humidity wind_speed wind_direction precipitation : ℚ)
    (hour_of_day : Option ℤ) : AspectRates :=
  { rime := COMPASS_POINTS.map fun p =>
      (p.1, calculate_rime_formation_rate temperature humidity wind_speed wind_direction p.2)
    verglas := COMPASS_POINTS.map fun p =>
      (p.1, calculate_verglas_formation_rate temperature humidity precipitation p.2 hour_of_day) }

/-- Modelled from the spec: a weather sample as the melt-freeze verglas model
reads it (spec section 3); only the temperature and precipitation fields are
consumed by that model. The model itself (spec section 4.4) is not present in
the repository sources, only its configuration constants are, so it is
modelled here from the spec over the reals. -/
structure WeatherSample where
  temperature : ℝ
  precipitation : ℝ

/-- Modelled from the spec: ExponentialRecency(hoursAgo; halfLife=18) =
exp(-hoursAgo / halfLife) (spec section 4.2, VERGLAS_MELT_RECENCY_HALFLIFE
= 18 in config.py). -/
noncomputable def exponentialRecency (hoursAgo : ℝ) : ℝ :=
  Real.exp (-hoursAgo / 18)

/-- Modelled from the spec: RefreezeFactor(temp; zero_point=0, full_point=-3):
0 at or above the zero point, 1 at or below the full point, linear between
(spec section 4.2, VERGLAS_REFREEZE_TEMP_ZERO = 0 and
VERGLAS_REFREEZE_TEMP_FULL = -3 in config.py). -/
noncomputable def refreezeFactor (temp : ℝ) : ℝ :=
  if 0 ≤ temp then 0
  else if temp ≤ -3 then 1
  else -temp / 3

/-- Modelled from the spec: the melt score scan over the history, carried
out most-recent-first with the given 1-indexed recency (spec section 4.4
step 2, VERGLAS_MELT_TEMP_THRESHOLD = 0.0 and VERGLAS_MELT_TEMP_NORMALIZE
= 5.0 in config.py). -/
noncomputable def meltScoreAux (recency : ℕ) : List WeatherSample → ℝ
  | [] => 0
  | s :: rest =>
    (if s.temperature > 0 then
      exponentialRecency (recency : ℝ) * min 1 (s.temperature / 5)
     else 0) + meltScoreAux (recency + 1) rest

/-- Modelled from the spec: meltScore of a chronologically ordered history,
scanned most-recent-first with 1-indexed recency (spec section 4.4 step 2). -/
noncomputable def meltScore (history : List WeatherSample) : ℝ :=
  meltScoreAux 1 history.reverse

/-- Modelled from the spec: rainFactor = min(1, sum of precipitation over the
history hours whose temperature exceeds the melt threshold, divided by 2.0)
(spec section 4.4 step 3, VERGLAS_RAIN_BOOST_NORMALIZE = 2.0 in config.py). -/
noncomputable def rainFactor (history : List WeatherSample) : ℝ :=
  min 1 (((history.filter fun s => decide (s.temperature > 0)).map
    WeatherSample.precipitation).sum / 2)

/-- Modelled from the spec: round-half-to-even rounding on the reals, the
real-valued counterpart of roundHalfEven. -/
noncomputable def roundHalfEvenR (x : ℝ) : ℤ :=
  let f : ℤ := ⌊x⌋
  let r : ℝ := x - (f : ℝ)
  if r < 1/2 then f
  else if 1/2 < r then f + 1
  else if f % 2 = 0 then f else f + 1

/-- Modelled from the spec: Python round(x, n) on the reals. -/
noncomputable def pyRoundR (n : ℕ) (x : ℝ) : ℝ :=
  ((roundHalfEvenR (x * 10 ^ n) : ℝ)) / 10 ^ n

/-- Modelled from the spec: VerglasMeltFreezeModel.rate (spec section 4.4),
which is absent from the repository sources. Three sequential gates each
short-circuit to 0: no refreeze factor, then no melt score; otherwise the
rate combines refreeze, melt score and the rain boost, clamped to 1 and
rounded to 3 decimals. -/
noncomputable def verglas_melt_freeze_rate
    (current : WeatherSample) (history : List WeatherSample) : ℝ :=
  let refreeze := refreezeFactor current.temperature
  if refreeze = 0 then 0
  else
    let melt_score := meltScore history
    if melt_score = 0 then 0
    else
      let rain_factor := rainFactor history
      pyRoundR 3 (min 1 (refreeze * melt_score * (7/10 + 3/10 * rain_factor)))

/-- Modelled from the spec: the caller-side minimum-history floor (spec
sections 3 and 4.4): below VERGLAS_MIN_LOOKBACK_HOURS samples the caller
substitutes a rate of 0 rather than invoking the model. -/
noncomputable def verglas_melt_freeze_rate_with_floor
    (current : WeatherSample) (history : List WeatherSample) : ℝ :=
  if history.length < VERGLAS_MIN_LOOKBACK_HOURS then 0
  else verglas_melt_freeze_rate current history

/-- The encoded Python min agrees with the mathematical min. -/
lemma qmin_eq_min (a b : ℚ) : qmin a b = min a b := by
  unfold qmin
  split_ifs with h
  · exact (min_eq_left h).symm
  · exact (min_eq_right (le_of_not_le h)).symm

/-- The encoded Python max agrees with the mathematical max. -/
lemma qmax_eq_max (a b : ℚ) : qmax a b = max a b := by
  unfold qmax
  split_ifs with h
  · exact (max_eq_right h).symm
  · exact (max_eq_left (le_of_not_le h)).symm

/-- The encoded Python abs agrees with the mathematical absolute value. -/
lemma qabs_eq_abs (a : ℚ) : qabs a = |a| := by
  unfold qabs
  split_ifs with h
  · exact (abs_of_neg h).symm
  · exact (abs_of_nonneg (not_lt.mp h)).symm

unseal Rat.inv Rat.mul Rat.add Rat.sub in
/-- C1: the claim states that an aspect equal to wind_direction gets the
maximum aspect factor 1.0 and that with wind from the west (270) the W face
scores near the maximum while the E face gets about 0.1 times the base rate.
The code computes the angular difference from (wind_direction + 180) % 360
instead of wind_direction, so at wind_direction = 270 the W face (270) gets
the floor factor 0.1 and rate 0.053, while the E face (90) gets factor 1.0
and rate 0.533 — the opposite of the claim, of the spec formula
(spec_rime_aspect_factor), and of the windward-aspect comment in config.py. -/
theorem rime_aspect_factor_windward_inverted :
    rime_aspect_factor 270 270 = 1/10 ∧
    spec_rime_aspect_factor 270 270 = 1 ∧
    rime_aspect_factor 90 270 = 1 ∧
    calculate_rime_formation_rate (-6) 90 12 270 270 = 53/1000 ∧
    calculate_rime_formation_rate (-6) 90 12 270 90 = 533/1000 := by
  decide

/-- C2: the claim states that every scoring function, in particular
calculate_rime_risk, returns a well-formed numeric result and never raises.
In the code calculate_rime_risk always fails: its wind factor reads
config.RIME_WIND_MIN, an attribute config.py never defines, so every call
raises AttributeError (modelled as none). -/
theorem calculate_rime_risk_always_none :
    ∀ (t h ws wd : ℚ) (e a : Option ℚ), calculate_rime_risk t h ws wd e a = none :=
  fun _ _ _ _ _ _ => rfl

unseal Rat.inv Rat.mul Rat.add Rat.sub in
/-- C4 counterexample: the claim states that any humidity below the 85%
threshold forces a zero rime formation rate, but at humidity 80 (below 85)
the code returns 0.267, not 0: the formation-rate gate is at 70, not 85. -/
theorem rime_formation_humidity_80_nonzero :
    (80 : ℚ) < RIME_HUMIDITY_THRESHOLD ∧
    calculate_rime_formation_rate (-6) 80 12 270 90 = 267/1000 ∧
    calculate_rime_formation_rate (-6) 80 12 270 90 ≠ 0 := by
  decide

/-- C4 amended: the humidity gate of calculate_rime_formation_rate is at
70%: below it the rate is exactly 0 regardless of the other inputs. -/
theorem rime_formation_humidity_gate_70 :
    ∀ (t h ws wd a : ℚ), h < 70 → calculate_rime_formation_rate t h ws wd a = 0 := by
  intro t h ws wd a hh
  unfold calculate_rime_formation_rate
  by_cases h1 : t > RIME_TEMP_VIABLE_MAX ∨ t < RIME_TEMP_VIABLE_MIN
  · rw [if_pos h1]
  · rw [if_neg h1, if_pos hh]

unseal Rat.inv Rat.mul Rat.add Rat.sub in
/-- Witness for C4 amended at humidity 60. -/
theorem rime_formation_humidity_gate_70_witness :
    calculate_rime_formation_rate (-6) 60 12 270 90 = 0 :=
  rime_formation_humidity_gate_70 (-6) 60 12 270 90 (by decide)

unseal Rat.inv Rat.mul Rat.add Rat.sub in
/-- C5: the claim states that no input produces a rime formation rate
outside [0, 1], even out-of-range ones such as a negative wind speed.
The code does not clamp the wind factor below, so at wind_speed = -15 it
returns the negative rate -0.667, contradicting the claim and the
function's own docstring range of 0 to 1. -/
theorem rime_formation_rate_negative :
    calculate_rime_formation_rate (-5) 90 (-15) 0 180 = -(667/1000) ∧
    calculate_rime_formation_rate (-5) 90 (-15) 0 180 < 0 := by
  decide

unseal Rat.inv Rat.mul Rat.add Rat.sub in
/-- C6 counterexample: the claim states the wind factor is
min(1, wind_speed / RIME_WIND_MAX) with RIME_WIND_MAX = 25, strictly below
1 for any wind speed under 25. At wind speed 20 (below 25) the code's wind
factor is already saturated at 1 and differs from the claimed formula. -/
theorem rime_wind_factor_saturated_at_20 :
    (20 : ℚ) < RIME_WIND_MAX ∧
    rime_wind_factor 20 = 1 ∧
    rime_wind_factor 20 ≠ min 1 (20 / RIME_WIND_MAX) := by
  refine ⟨by decide, by decide, ?_⟩
  have h1 : rime_wind_factor 20 = 1 := by decide
  have h2 : min 1 ((20 : ℚ) / RIME_WIND_MAX) = 4/5 := by
    rw [RIME_WIND_MAX]
    rw [min_eq_right (by norm_num)]
    norm_num
  rw [h1, h2]
  norm_num

unseal Rat.inv Rat.mul Rat.add Rat.sub in
/-- C6 amended: the wind factor of calculate_rime_formation_rate equals
min(1, wind_speed / 15): it is strictly below 1 for wind speeds under
15 m/s, saturates at exactly 15 m/s, and beyond 15 m/s the whole formation
rate no longer changes with wind speed. -/
theorem rime_wind_factor_saturates_at_15 :
    ∀ ws : ℚ,
    rime_wind_factor ws = min 1 (ws / 15) ∧
    (ws < 15 → rime_wind_factor ws < 1) ∧
    (15 ≤ ws → rime_wind_factor ws = 1) ∧
    (15 ≤ ws → ∀ t h wd a : ℚ,
      calculate_rime_formation_rate t h ws wd a = calculate_rime_formation_rate t h 15 wd a) := by
  intro ws
  have hform : rime_wind_factor ws = min 1 (ws / 15) := by
    unfold rime_wind_factor
    exact qmin_eq_min 1 (ws / 15)
  have hsat : 15 ≤ ws → rime_wind_factor ws = 1 := by
    intro hws
    rw [hform]
    exact min_eq_left (by rw [le_div_iff₀ (by norm_num : (0:ℚ) < 15)]; linarith)
  refine ⟨hform, ?_, hsat, ?_⟩
  · intro hws
    rw [hform, min_eq_right (by rw [div_le_one (by norm_num : (0:ℚ) < 15)]; linarith)]
    rw [div_lt_one (by norm_num : (0:ℚ) < 15)]
    linarith
  · intro hws t h wd a
    have h15 : rime_wind_factor ws = rime_wind_factor 15 := by
      rw [hsat hws]
      decide
    unfold calculate_rime_formation_rate
    rw [h15]

unseal Rat.inv Rat.mul Rat.add Rat.sub in
/-- Witness for C6 amended at wind speeds 10 and 18. -/
theorem rime_wind_factor_saturates_at_15_witness :
    rime_wind_factor 10 < 1 ∧
    rime_wind_factor 18 = 1 ∧
    calculate_rime_formation_rate (-6) 90 18 270 90 = calculate_rime_formation_rate (-6) 90 15 270 90 :=
  ⟨(rime_wind_factor_saturates_at_15 10).2.1 (by decide),
   (rime_wind_factor_saturates_at_15 18).2.2.1 (by decide),
   (rime_wind_factor_saturates_at_15 18).2.2.2 (by decide) (-6) 90 270 90⟩

/-- C9: calculate_aspect_formation_rates returns the rime and verglas
mappings over exactly the eight compass names in the fixed order N, NE, E,
SE, S, SW, W, NW with their fixed bearings, each entry being the
corresponding single-aspect rate function applied at that bearing. -/
theorem aspect_formation_rates_compass (t h ws wd p : ℚ) (hr : Option ℤ) :
    COMPASS_POINTS = [("N", 0), ("NE", 45), ("E", 90), ("SE", 135),
      ("S", 180), ("SW", 225), ("W", 270), ("NW", 315)] ∧
    (calculate_aspect_formation_rates t h ws wd p hr).rime =
      [("N", calculate_rime_formation_rate t h ws wd 0),
       ("NE", calculate_rime_formation_rate t h ws wd 45),
       ("E", calculate_rime_formation_rate t h ws wd 90),
       ("SE", calculate_rime_formation_rate t h ws wd 135),
       ("S", calculate_rime_formation_rate t h ws wd 180),
       ("SW", calculate_rime_formation_rate t h ws wd 225),
       ("W", calculate_rime_formation_rate t h ws wd 270),
       ("NW", calculate_rime_formation_rate t h ws wd 315)] ∧
    (calculate_aspect_formation_rates t h ws wd p hr).verglas =
      [("N", calculate_verglas_formation_rate t h p 0 hr),
       ("NE", calculate_verglas_formation_rate t h p 45 hr),
       ("E", calculate_verglas_formation_rate t h p 90 hr),
       ("SE", calculate_verglas_formation_rate t h p 135 hr),
       ("S", calculate_verglas_formation_rate t h p 180 hr),
       ("SW", calculate_verglas_formation_rate t h p 225 hr),
       ("W", calculate_verglas_formation_rate t h p 270 hr),
       ("NW", calculate_verglas_formation_rate t h p 315 hr)] :=
  ⟨rfl, rfl, rfl⟩

/-- Helper: on the lower ramp [-15, -10] the rime temperature score is the
linear function 6 * (t + 15). -/
lemma score_rime_temperature_lower_ramp (s : ℚ) (h1 : -15 ≤ s) (h2 : s ≤ -10) :
    score_rime_temperature s = 6 * (s + 15) := by
  unfold score_rime_temperature RIME_TEMP_VIABLE_MAX RIME_TEMP_VIABLE_MIN
    RIME_TEMP_OPTIMAL_MAX RIME_TEMP_OPTIMAL_MIN
  split_ifs with g1 g2 g3
  · rcases g1 with g | g <;> linarith
  · linarith
  · linarith [g3.1]
  · ring
/-- Helper: on the upper ramp [-2, 0] the rime temperature score is the
linear function -15 * t. -/
lemma score_rime_temperature_upper_ramp (s : ℚ) (h1 : -2 ≤ s) (h2 : s ≤ 0) :
    score_rime_temperature s = -15 * s := by
  unfold score_rime_temperature RIME_TEMP_VIABLE_MAX RIME_TEMP_VIABLE_MIN
    RIME_TEMP_OPTIMAL_MAX RIME_TEMP_OPTIMAL_MIN
  split_ifs with g1 g2 g3
  · rcases g1 with g | g <;> linarith
  · ring
  · linarith [g3.2]
  · exact absurd ⟨by linarith, by linarith⟩ g3

/-- Helper: on the optimal band [-10, -2] the rime temperature score is 30. -/
lemma score_rime_temperature_optimal (s : ℚ) (h1 : -10 ≤ s) (h2 : s ≤ -2) :
    score_rime_temperature s = 30 := by
  unfold score_rime_temperature RIME_TEMP_VIABLE_MAX RIME_TEMP_VIABLE_MIN
    RIME_TEMP_OPTIMAL_MAX RIME_TEMP_OPTIMAL_MIN
  split_ifs with g1 g2 g3
  · rcases g1 with g | g <;> linarith
  · linarith
  · rfl
  · exact absurd ⟨h1, h2⟩ g3

/-- C7: the rime temperature response is trapezoidal: any temperature
outside the viable range [-15, 0] forces a zero formation rate; every
temperature in the optimal band [-10, -2], endpoints included, scores the
maximum 30 (temperature factor 1); and on each ramp between a viable bound
and the adjacent optimal bound the score coincides with a linear function
on the closed segment (hence is continuous there, matching the values at
both endpoints) and is monotonic. -/
theorem rime_temperature_trapezoid (t : ℚ) :
    ((t > RIME_TEMP_VIABLE_MAX ∨ t < RIME_TEMP_VIABLE_MIN) →
      ∀ h ws wd a : ℚ, calculate_rime_formation_rate t h ws wd a = 0) ∧
    (RIME_TEMP_OPTIMAL_MIN ≤ t → t ≤ RIME_TEMP_OPTIMAL_MAX →
      score_rime_temperature t = 30 ∧ score_rime_temperature t / 30 = 1) ∧
    (RIME_TEMP_VIABLE_MIN ≤ t → t ≤ RIME_TEMP_OPTIMAL_MIN →
      score_rime_temperature t = 6 * (t + 15)) ∧
    (RIME_TEMP_OPTIMAL_MAX ≤ t → t ≤ RIME_TEMP_VIABLE_MAX →
      score_rime_temperature t = -15 * t) ∧
    (∀ t2 : ℚ, RIME_TEMP_VIABLE_MIN ≤ t → t ≤ t2 → t2 ≤ RIME_TEMP_OPTIMAL_MIN →
      score_rime_temperature t ≤ score_rime_temperature t2) ∧
    (∀ t2 : ℚ, RIME_TEMP_OPTIMAL_MAX ≤ t → t ≤ t2 → t2 ≤ RIME_TEMP_VIABLE_MAX →
      score_rime_temperature t2 ≤ score_rime_temperature t) := by
  refine ⟨?_, ?_, ?_, ?_, ?_, ?_⟩
  · intro hg h ws wd a
    unfold calculate_rime_formation_rate
    rw [if_pos hg]
  · intro h1 h2
    have h30 : score_rime_temperature t = 30 := score_rime_temperature_optimal t h1 h2
    exact ⟨h30, by rw [h30]; norm_num⟩
  · exact fun h1 h2 => score_rime_temperature_lower_ramp t h1 h2
  · exact fun h1 h2 => score_rime_temperature_upper_ramp t h1 h2
  · intro t2 h1 h2 h3
    rw [score_rime_temperature_lower_ramp t h1 (le_trans h2 h3),
      score_rime_temperature_lower_ramp t2 (le_trans h1 h2) h3]
    linarith
  · intro t2 h1 h2 h3
    rw [score_rime_temperature_upper_ramp t h1 (le_trans h2 h3),
      score_rime_temperature_upper_ramp t2 (le_trans h1 h2) h3]
    linarith

unseal Rat.inv Rat.mul Rat.add Rat.sub in
/-- Witness for C7 at temperatures 3, -5, -12, -1, and on both ramps. -/
theorem rime_temperature_trapezoid_witness :
    calculate_rime_formation_rate 3 90 12 270 90 = 0 ∧
    score_rime_temperature (-5) = 30 ∧
    score_rime_temperature (-12) = 6 * (-12 + 15) ∧
    score_rime_temperature (-1) = -15 * (-1) ∧
    score_rime_temperature (-13) ≤ score_rime_temperature (-11) ∧
    score_rime_temperature (-1/2) ≤ score_rime_temperature (-1) :=
  ⟨(rime_temperature_trapezoid 3).1 (Or.inl (by decide)) 90 12 270 90,
   ((rime_temperature_trapezoid (-5)).2.1 (by decide) (by decide)).1,
   (rime_temperature_trapezoid (-12)).2.2.1 (by decide) (by decide),
   (rime_temperature_trapezoid (-1)).2.2.2.1 (by decide) (by decide),
   (rime_temperature_trapezoid (-13)).2.2.2.2.1 (-11) (by decide) (by decide) (by decide),
   (rime_temperature_trapezoid (-1)).2.2.2.2.2 (-1/2) (by decide) (by decide) (by decide)⟩

/-- Helper: characterisation of the four risk-level strings by their score
ranges, with inclusive lower bounds. -/
lemma get_risk_level_iff (s : ℚ) :
    (get_risk_level s = "extreme" ↔ 75 ≤ s) ∧
    (get_risk_level s = "high" ↔ 50 ≤ s ∧ s < 75) ∧
    (get_risk_level s = "moderate" ↔ 25 ≤ s ∧ s < 50) ∧
    (get_risk_level s = "low" ↔ s < 25) := by
  unfold get_risk_level
  split_ifs with h1 h2 h3
  · exact ⟨iff_of_true rfl h1,
      iff_of_false (by decide) (by intro hc; linarith [hc.2]),
      iff_of_false (by decide) (by intro hc; linarith [hc.2]),
      iff_of_false (by decide) (by intro hc; linarith)⟩
  · exact ⟨iff_of_false (by decide) h1,
      iff_of_true rfl ⟨h2, by linarith [not_le.mp h1]⟩,
      iff_of_false (by decide) (by intro hc; linarith [hc.2]),
      iff_of_false (by decide) (by intro hc; linarith)⟩
  · exact ⟨iff_of_false (by decide) h1,
      iff_of_false (by decide) (by intro hc; exact h2 hc.1),
      iff_of_true rfl ⟨h3, by linarith [not_le.mp h2]⟩,
      iff_of_false (by decide) (by intro hc; linarith)⟩
  · exact ⟨iff_of_false (by decide) h1,
      iff_of_false (by decide) (by intro hc; exact h2 hc.1),
      iff_of_false (by decide) (by intro hc; exact h3 hc.1),
      iff_of_true rfl (by linarith [not_le.mp h3])⟩

/-- C8: the risk level is extreme iff the score is at least 75, high iff it
is in [50, 75), moderate iff in [25, 50), low otherwise; and for any two
risk results whose scores are already 1-decimal values (as every score
produced by the risk functions is), the combined overall score is the
maximum of the two and the primary hazard is rime iff the rime score is
strictly greater, ties yielding verglas. -/
theorem risk_level_and_combine_spec (s : ℚ) (R V : RiskResult) :
    (get_risk_level s = "extreme" ↔ 75 ≤ s) ∧
    (get_risk_level s = "high" ↔ 50 ≤ s ∧ s < 75) ∧
    (get_risk_level s = "moderate" ↔ 25 ≤ s ∧ s < 50) ∧
    (get_risk_level s = "low" ↔ s < 25) ∧
    (pyRound 1 R.score = R.score → pyRound 1 V.score = V.score →
      (get_combined_risk R V).overall_score = max R.score V.score) ∧
    ((get_combined_risk R V).primary_hazard = "rime" ↔ V.score < R.score) ∧
    (R.score ≤ V.score → (get_combined_risk R V).primary_hazard = "verglas") := by
  obtain ⟨he, hh, hm, hl⟩ := get_risk_level_iff s
  refine ⟨he, hh, hm, hl, ?_, ?_, ?_⟩
  · intro hR hV
    show pyRound 1 (qmax R.score V.score) = max R.score V.score
    rw [qmax_eq_max]
    rcases max_cases R.score V.score with ⟨h1, _⟩ | ⟨h1, _⟩ <;> rw [h1] <;> assumption
  · show (if R.score > V.score then "rime" else "verglas") = "rime" ↔ V.score < R.score
    split_ifs with h
    · exact iff_of_true rfl h
    · exact iff_of_false (by decide) h
  · intro hle
    show (if R.score > V.score then "rime" else "verglas") = "verglas"
    rw [if_neg (not_lt.mpr hle)]

unseal Rat.inv Rat.mul Rat.add Rat.sub in
/-- Witness for C8 at score 60 and a tied pair of results. -/
theorem risk_level_and_combine_spec_witness :
    pyRound 1 (60 : ℚ) = 60 ∧
    (get_combined_risk ⟨60, "high", []⟩ ⟨60, "high", []⟩).overall_score = 60 ∧
    (get_combined_risk ⟨60, "high", []⟩ ⟨60, "high", []⟩).primary_hazard = "verglas" :=
  ⟨by decide,
   ((risk_level_and_combine_spec 60 ⟨60, "high", []⟩ ⟨60, "high", []⟩).2.2.2.2.1
      (by decide) (by decide)).trans (by decide),
   (risk_level_and_combine_spec 60 ⟨60, "high", []⟩ ⟨60, "high", []⟩).2.2.2.2.2.2 (le_refl 60)⟩

/-- C10: the aspect and time-of-day verglas variant returns 0 whenever the
temperature is above 4°C or below -4°C, returns 0 whenever precipitation
is non-positive and humidity is below 85%, and with non-positive
precipitation it draws moisture from humidity with (humidity - 85) / 15 as
the moisture factor. -/
theorem verglas_rate_gates_and_moisture (t h p a : ℚ) (hr : Option ℤ) :
    (t > 4 ∨ t < -4 → calculate_verglas_formation_rate t h p a hr = 0) ∧
    (p ≤ 0 → h < 85 → calculate_verglas_formation_rate t h p a hr = 0) ∧
    (p ≤ 0 → verglas_moisture_factor p h = (h - 85) / 15) := by
  refine ⟨?_, ?_, ?_⟩
  · intro hc
    unfold calculate_verglas_formation_rate
    rw [if_pos hc]
  · intro hp hh
    unfold calculate_verglas_formation_rate
    by_cases h1 : t > 4 ∨ t < -4
    · rw [if_pos h1]
    · rw [if_neg h1, if_pos ⟨hp, hh⟩]
  · intro hp
    unfold verglas_moisture_factor
    rw [if_neg (not_lt.mpr hp)]

unseal Rat.inv Rat.mul Rat.add Rat.sub in
/-- Witness for C10 at a warm input, a dry low-humidity input, and a dry
humid input. -/
theorem verglas_rate_gates_and_moisture_witness :
    calculate_verglas_formation_rate 10 90 5 0 none = 0 ∧
    calculate_verglas_formation_rate 0 80 0 0 none = 0 ∧
    verglas_moisture_factor 0 90 = 1/3 :=
  ⟨(verglas_rate_gates_and_moisture 10 90 5 0 none).1 (Or.inl (by decide)),
   (verglas_rate_gates_and_moisture 0 80 0 0 none).2.1 (by decide) (by decide),
   ((verglas_rate_gates_and_moisture 0 90 0 0 none).2.2 (by decide)).trans (by decide)⟩

/-- Helper: the melt scan vanishes when no sample in the list exceeds the
melt threshold. -/
lemma meltScoreAux_eq_zero (l : List WeatherSample) :
    ∀ n : ℕ, (∀ s ∈ l, s.temperature ≤ 0) → meltScoreAux n l = 0 := by
  induction l with
  | nil => intro n _; simp [meltScoreAux]
  | cons s rest ih =>
    intro n h
    have hs : s.temperature ≤ 0 := h s (List.mem_cons_self s rest)
    have hr : ∀ x ∈ rest, x.temperature ≤ 0 := fun x hx => h x (List.mem_cons_of_mem s hx)
    simp only [meltScoreAux]
    rw [if_neg (not_lt.mpr hs), ih (n + 1) hr]
    norm_num

/-- Helper: the melt score of a history with no sample above the melt
threshold is zero. -/
lemma meltScore_eq_zero (history : List WeatherSample)
    (h : ∀ s ∈ history, s.temperature ≤ 0) : meltScore history = 0 :=
  meltScoreAux_eq_zero history.reverse 1 fun s hs => h s (List.mem_reverse.mp hs)

/-- C3: the melt-freeze verglas model (modelled from the spec, since only
its configuration constants appear in the sources) returns 0 whenever the
current temperature is at or above 0°C, returns 0 whenever no sample in the
history exceeds the 0°C melt threshold, and the caller-side floor forces a
rate of 0 whenever the history is shorter than the configured 12-sample
minimum. -/
theorem verglas_melt_freeze_gates (current : WeatherSample) (history : List WeatherSample) :
    (0 ≤ current.temperature → verglas_melt_freeze_rate current history = 0) ∧
    ((∀ s ∈ history, s.temperature ≤ 0) → verglas_melt_freeze_rate current history = 0) ∧
    (history.length < VERGLAS_MIN_LOOKBACK_HOURS →
      verglas_melt_freeze_rate_with_floor current history = 0) := by
  refine ⟨?_, ?_, ?_⟩
  · intro h
    have h0 : refreezeFactor current.temperature = 0 := by
      unfold refreezeFactor
      rw [if_pos h]
    simp only [verglas_melt_freeze_rate]
    rw [h0, if_pos rfl]
  · intro h
    simp only [verglas_melt_freeze_rate]
    by_cases h0 : refreezeFactor current.temperature = 0
    · rw [h0, if_pos rfl]
    · rw [if_neg h0, meltScore_eq_zero history h, if_pos rfl]
  · intro h
    unfold verglas_melt_freeze_rate_with_floor
    rw [if_pos h]

/-- Witness for C3 at a warm current sample, a cold-history pair, and a
one-sample history. -/
theorem verglas_melt_freeze_gates_witness :
    verglas_melt_freeze_rate ⟨1, 0⟩ [⟨1, 2⟩] = 0 ∧
    verglas_melt_freeze_rate ⟨-2, 0⟩ [⟨0, 1⟩] = 0 ∧
    verglas_melt_freeze_rate_with_floor ⟨-2, 0⟩ [⟨3, 1⟩] = 0 :=
  ⟨(verglas_melt_freeze_gates ⟨1, 0⟩ [⟨1, 2⟩]).1 zero_le_one,
   (verglas_melt_freeze_gates ⟨-2, 0⟩ [⟨0, 1⟩]).2.1 (by simp),
   (verglas_melt_freeze_gates ⟨-2, 0⟩ [⟨3, 1⟩]).2.2 (by decide)⟩
